import Mathlib

/-!
Verification development for the infera-back repository.

This file gives a shallow embedding, in Lean 4, of the parts of the
repository that the specification's testable claims talk about:

* the classifier RPC client (src/orchestration/routes.py, classify_decision)
  and the classifier service's own local classifier (src/main.py,
  classify_decision);
* the OpenAI adapter (src/adapters/openai_adapter_v2.py): response
  extraction, the approval loop of chat with its tool-call deduplication,
  tool-call statistics, and MCP tool registration;
* the orchestrator handle factory (src/orchestration/utils.py,
  initialize_openai_agent);
* the per-channel message batching system (src/utils.py): MessageBatch,
  add_message_to_batch, process_message_batch, get_batch_status, and the
  composed input built by background_batch_analysis_task;
* the Slack messages webhook handler (src/orchestration/routes.py,
  slack_messages_webhook).

External effects (HTTP calls, the database, timers, the LLM) are modelled
by explicit environment records supplying the outcome of each call, with
Except used for calls that can raise.  Python floats are modelled as exact
rationals; Python round with 2 resp. 4 digits is modelled by rounding to
the nearest multiple of 1/100 resp. 1/10000.  Wall-clock instants are
modelled as whole seconds (Nat).
-/

/-- Python str applied to an optional string value (str(None) prints None),
as used when such a value is interpolated into an f-string. -/
def optStr : Option String → String
  | none => "None"
  | some s => s

/-- Python repr of an optional string value inside a dict literal:
None prints bare, a string prints between single quotes. -/
def optRepr : Option String → String
  | none => "None"
  | some s => "\x27" ++ s ++ "\x27"

/-- Whitespace test used by Python str.split with no argument. -/
def pySpace (c : Char) : Bool :=
  c == ' ' || c == '\n' || c == '\t' || c == '\r'

/-- Helper for pyTokenCount: count maximal non-whitespace runs; the flag
records whether the previous character belonged to a token. -/
def tokenCountAux : List Char → Bool → Nat
  | [], _ => 0
  | c :: cs, inTok =>
    if pySpace c then tokenCountAux cs false
    else (if inTok then 0 else 1) + tokenCountAux cs true

/-- Python len(text.split()): the number of whitespace-separated tokens. -/
def pyTokenCount (s : String) : Nat := tokenCountAux s.data false

/-- Python round(x, 2) on an exact rational (nearest multiple of 1/100). -/
def roundTo2 (q : ℚ) : ℚ := (round (q * 100) : ℤ) / 100

/-- Python round(x, 4) on an exact rational (nearest multiple of 1/10000). -/
def roundTo4 (q : ℚ) : ℚ := (round (q * 10000) : ℤ) / 10000

/-- A classification outcome as the webhook pipeline consumes it. -/
structure ClassResult where
  classification : String
  confidence : ℚ
deriving DecidableEq, Repr

namespace OrchRoutes

/-- JSON body of a reply from the external classification service:
result.get("classification", default) and result.get("confidence",
default) can each be absent. -/
structure ClassifierResponse where
  classification : Option String
  confidence : Option ℚ
deriving DecidableEq, Repr

/-- Environment of one call to classify_decision in
src/orchestration/routes.py: the CLASSIFICATION_SERVICE variable and the
outcome of the POST to its analyze URL (error covers httpx.HTTPError and
any other exception). -/
structure ClassifyEnv where
  classification_service : Option String
  rpc : Except String ClassifierResponse

/-- Embedding of classify_decision (src/orchestration/routes.py lines
35-65).  The second component of the result records whether the external
endpoint was invoked. -/
def classify_decision (text : String) (env : ClassifyEnv) : ClassResult × Bool :=
  match env.classification_service with
  | none =>
      ({ classification := "GENERAL_CONVERSATION", confidence := 1/2 }, false)
  | some _ =>
      match env.rpc with
      | .error _ =>
          ({ classification := "GENERAL_CONVERSATION", confidence := 1/2 }, true)
      | .ok result =>
          ({ classification := result.classification.getD "GENERAL_CONVERSATION",
             confidence := roundTo4 (result.confidence.getD 0) }, true)

end OrchRoutes

namespace MainApp

/-- Embedding of classify_decision (src/main.py lines 79-90), the
classifier service's own local classifier.  The prediction argument is the
top label and score produced by the zero-shot CLASSIFIER pipeline; the
second component of the result records whether that pipeline was
invoked. -/
def classify_decision (text : String) (prediction : String × ℚ) : ClassResult × Bool :=
  if pyTokenCount text < 4 then
    ({ classification := "NONE", confidence := 0 }, false)
  else
    ({ classification := prediction.1, confidence := roundTo4 prediction.2 }, true)

end MainApp

namespace Adapter

/-- One completed MCP tool invocation as extracted by
_extract_response_content (src/adapters/openai_adapter_v2.py lines
82-92); success is defined as the error being absent, and the stored
error is the message of the error object. -/
structure ToolCall where
  id : String
  name : String
  server_label : String
  arguments : String
  success : Bool
  error : Option String
  output : Option String
deriving DecidableEq, Repr

/-- One pending approval request as extracted by
_extract_response_content (lines 95-103). -/
structure ApprovalRequest where
  id : String
  name : String
  server_label : String
  arguments : String
deriving DecidableEq, Repr

/-- One item of the output list of an OpenAI response, at the granularity
_extract_response_content consumes it.  A message item carries the first
output_text span found in its content list, if any; an mcp_call item
carries the message of its error object, if any. -/
inductive OutputItem where
  | message (text : Option String)
  | mcp_call (id : String) (name : String) (server_label : String)
      (arguments : String) (error : Option String) (output : Option String)
  | approval (id : String) (name : String) (server_label : String)
      (arguments : String)
  | other
deriving DecidableEq, Repr

/-- Result of _extract_response_content. -/
structure Extracted where
  content : String
  tool_calls : List ToolCall
  approval_requests : List ApprovalRequest
deriving DecidableEq, Repr

/-- One step of the item loop of _extract_response_content: a message
item overwrites content with its first output_text (if it has one), an
mcp_call item appends a tool call, an approval item appends an approval
request, anything else is skipped. -/
def extractStep (acc : Extracted) : OutputItem → Extracted
  | .message t =>
      match t with
      | some text => { acc with content := text }
      | none => acc
  | .mcp_call id name label args err out =>
      { acc with tool_calls := acc.tool_calls ++
          [{ id := id, name := name, server_label := label, arguments := args,
             success := err.isNone, error := err, output := out }] }
  | .approval id name label args =>
      { acc with approval_requests := acc.approval_requests ++
          [{ id := id, name := name, server_label := label, arguments := args }] }
  | .other => acc

/-- Embedding of _extract_response_content (lines 55-109). -/
def extract_response_content (output : List OutputItem) : Extracted :=
  output.foldl extractStep { content := "", tool_calls := [], approval_requests := [] }

/-- An OpenAI response at the granularity chat consumes it. -/
structure Response where
  id : Option String
  output : List OutputItem
deriving DecidableEq, Repr

/-- Environment of one chat run: the outcome of the initial
responses.create call and of the k-th approval-continuation call made by
_handle_approval_requests (error covers any raised exception). -/
structure ChatEnv where
  initial : Except String Response
  continuation : Nat → Except String Response

/-- The deduplicating append used at each accumulation point of chat
(lines 209-217, 285-295, 319-329): the ids already accumulated are
collected first, and every call of the incoming list whose id is not
among them is appended. -/
def dedupAppend (acc new : List ToolCall) : List ToolCall :=
  acc ++ new.filter (fun tc => !(acc.any (fun e => e.id == tc.id)))

/-- Statistics over a list of tool calls (get_tool_call_stats). -/
structure ToolStats where
  total : Nat
  successful : Nat
  failed : Nat
  success_rate : ℚ
deriving DecidableEq, Repr

/-- Embedding of get_tool_call_stats (src/adapters/openai_adapter_v2.py
lines 379-402). -/
def get_tool_call_stats (tool_calls : List ToolCall) : ToolStats :=
  if tool_calls.isEmpty then
    { total := 0, successful := 0, failed := 0, success_rate := 0 }
  else
    let total := tool_calls.length
    let successful := (tool_calls.filter (fun c => c.success)).length
    let failed := total - successful
    { total := total, successful := successful, failed := failed,
      success_rate := roundTo2 (((successful : ℚ) / (total : ℚ)) * 100) }

/-- State of the approval loop of chat: the accumulated unique tool
calls, the two counters, the response the loop is currently looking at,
and the extraction bound by the top of the current loop iteration (the
variable named extracted in the source). -/
structure LoopState where
  all_tool_calls : List ToolCall
  approval_iterations : Nat
  total_approvals_processed : Nat
  current : Response
  last_extracted : Extracted

/-- Embedding of the while loop of chat (lines 197-305).  The fuel is the
number of loop entries still permitted, i.e. max_approval_iterations
minus approval_iterations; each iteration that handles approvals
consumes one unit.  A continuation error, an empty approval-request
list, or an approval result free of further approval requests all break
the loop as in the source. -/
def chatLoop (env : ChatEnv) : Nat → LoopState → LoopState
  | 0, st => st
  | fuel + 1, st =>
    let extracted := extract_response_content st.current.output
    let acc := dedupAppend st.all_tool_calls extracted.tool_calls
    if extracted.approval_requests.isEmpty then
      { st with all_tool_calls := acc, last_extracted := extracted }
    else
      match env.continuation st.approval_iterations with
      | .error _ =>
          { st with all_tool_calls := acc,
                    approval_iterations := st.approval_iterations + 1,
                    total_approvals_processed :=
                      st.total_approvals_processed + extracted.approval_requests.length,
                    last_extracted := extracted }
      | .ok resp =>
          let aext := extract_response_content resp.output
          let st2 : LoopState :=
            { all_tool_calls := dedupAppend acc aext.tool_calls,
              approval_iterations := st.approval_iterations + 1,
              total_approvals_processed :=
                st.total_approvals_processed + extracted.approval_requests.length,
              current := resp,
              last_extracted := extracted }
          if aext.approval_requests.isEmpty then st2 else chatLoop env fuel st2

/-- Result dictionary of chat.  An Option field set to none on the
failure branch models the corresponding key being absent from the
returned dict (the failure dict carries only success, error and
response); the response field itself is an Option within an Option
because the failure branch stores the value None under the response
key. -/
structure ChatResult where
  success : Bool
  error : Option String
  response : Option Response
  content : Option String
  tool_calls : Option (List ToolCall)
  tool_stats : Option ToolStats
  response_id : Option (Option String)
  approval_iterations : Option Nat
  total_approvals_processed : Option Nat
deriving DecidableEq, Repr

/-- Embedding of chat (src/adapters/openai_adapter_v2.py lines 165-377)
with the default max_approval_iterations of 50.  Any exception raised by
the initial responses.create call lands in the final except branch,
which returns success False, the error text, response None, and no other
keys. -/
def chat (env : ChatEnv) : ChatResult :=
  match env.initial with
  | .error e =>
      { success := false, error := some e, response := none, content := none,
        tool_calls := none, tool_stats := none, response_id := none,
        approval_iterations := none, total_approvals_processed := none }
  | .ok response =>
      let st0 : LoopState :=
        { all_tool_calls := [], approval_iterations := 0,
          total_approvals_processed := 0, current := response,
          last_extracted := { content := "", tool_calls := [], approval_requests := [] } }
      let st := chatLoop env 50 st0
      let final_extracted := extract_response_content st.current.output
      let all_tool_calls := dedupAppend st.all_tool_calls final_extracted.tool_calls
      let tool_stats := get_tool_call_stats all_tool_calls
      let final_content :=
        if final_extracted.content == "" then st.last_extracted.content
        else final_extracted.content
      { success := true, error := none, response := some st.current,
        content := some final_content, tool_calls := some all_tool_calls,
        tool_stats := some tool_stats, response_id := some st.current.id,
        approval_iterations := some st.approval_iterations,
        total_approvals_processed := some st.total_approvals_processed }

/-- One tool entry of the adapter's registry. -/
structure McpTool where
  ty : String
  server_label : String
  server_description : String
  server_url : String
  require_approval : String
  authorization : Option String
  allowed_tools : Option (List String)
deriving DecidableEq, Repr

/-- Embedding of add_mcp_tool (src/adapters/openai_adapter_v2.py lines
29-53): the entry is always appended; the authorization key is set only
when the argument is truthy (not None and not empty), likewise the
allowed_tools key. -/
def add_mcp_tool (tools : List McpTool) (server_label : String)
    (server_description : String) (server_url : String)
    (require_approval : String) (authorization : Option String)
    (allowed_tools : Option (List String)) : List McpTool :=
  let base : McpTool :=
    { ty := "mcp", server_label := server_label,
      server_description := server_description, server_url := server_url,
      require_approval := require_approval, authorization := none,
      allowed_tools := none }
  let withAuth :=
    match authorization with
    | some a => if a == "" then base else { base with authorization := some a }
    | none => base
  let withTools :=
    match allowed_tools with
    | some l => if l.isEmpty then withAuth else { withAuth with allowed_tools := some l }
    | none => withAuth
  tools ++ [withTools]

end Adapter

namespace OrchUtils

/-- The dictionary returned by get_user_credentials (src/auth/utils.py):
every key is present, an unavailable token is stored as None.  An empty
string token is modelled as none as well, since the source only tests
tokens for truthiness. -/
structure UserCredentials where
  github_token : Option String
  slack_token : Option String
  notion_token : Option String
  openai_api_key : Option String
deriving DecidableEq, Repr

/-- The adapter object returned by the factory, reduced to the state the
claims are about: its tool registry. -/
structure OpenAIAdapterV2 where
  tools : List Adapter.McpTool
deriving DecidableEq, Repr

/-- Embedding of initialize_openai_agent (src/orchestration/utils.py
lines 59-79).  The openai_token argument is the effective API key
(OPENAI_TOKEN falling back to OPENAI_API_KEY); when it is missing the
adapter constructor raises ValueError, the except branch prints and the
function falls off the end returning None.  Otherwise all three
registrations are made unconditionally, passing the user's Notion or
GitHub token as the authorization argument. -/
def initialize_openai_agent (user_credentials : UserCredentials)
    (openai_token : Option String) : Option OpenAIAdapterV2 :=
  match openai_token with
  | none => none
  | some _ =>
    let t1 := Adapter.add_mcp_tool [] "Notion" "Realizar acciones en Notion"
      "https://infera.fastmcp.app/mcp" "always" user_credentials.notion_token
      (some ["get_notion_page_content", "create_page", "search_a_page_in_notion",
             "get_notion_page_content", "append_text_block", "append_title_block",
             "append_code_block", "update_block"])
    let t2 := Adapter.add_mcp_tool t1 "GitHub" "Realizar acciones en GitHub"
      "https://api.githubcopilot.com/mcp/" "always" user_credentials.github_token
      (some ["search_code", "search_repositories"])
    let t3 := Adapter.add_mcp_tool t2 "Get_Github_File_Content"
      "Obtener el contenido de un archivo en GitHub"
      "https://infera.fastmcp.app/mcp" "always" user_credentials.github_token
      (some ["get_github_file_content"])
    some { tools := t3 }

end OrchUtils

namespace Batching

/-- The Slack message item built by create_slack_message_item
(src/utils.py lines 94-122), reduced to the fields the batching pipeline
reads; each event field can be absent. -/
structure SlackItem where
  messageId : String
  teamId : Option String
  channelId : Option String
  userId : Option String
  messageText : Option String
  timestamp : Option String
deriving DecidableEq, Repr

/-- The user_profile dict built by the webhook (src/orchestration/
routes.py lines 169-173): title and real_name come from the Slack
profile and can be None, the permalink is a string. -/
structure UserProfile where
  rol : Option String
  nombre : Option String
  enlace_mensaje : String
deriving DecidableEq, Repr

/-- Python str of the user_profile dict, as produced when the dict is
interpolated into an f-string. -/
def userProfileRepr (p : UserProfile) : String :=
  "\x7b\x27rol\x27: " ++ optRepr p.rol ++ ", \x27nombre\x27: " ++ optRepr p.nombre ++
    ", \x27enlace_mensaje\x27: \x27" ++ p.enlace_mensaje ++ "\x27\x7d"

/-- One element of a batch's messages list (MessageBatch.add_message,
src/utils.py lines 287-294).  The agent object is identified by an
opaque handle. -/
structure EnrichedMessage where
  slack_item : SlackItem
  user_profile : UserProfile
  openai_agent : Nat
  added_at : Nat
deriving DecidableEq, Repr

/-- A batch of messages for one channel (class MessageBatch,
src/utils.py lines 276-302).  created_at is the construction instant in
whole seconds. -/
structure MessageBatch where
  channel_id : String
  user_id : Int
  messages : List EnrichedMessage
  created_at : Nat
deriving DecidableEq, Repr

/-- Embedding of MessageBatch.add_message: appends to the end of the
messages list. -/
def MessageBatch.add_message (b : MessageBatch) (slack_item : SlackItem)
    (user_profile : UserProfile) (openai_agent : Nat) (now : Nat) : MessageBatch :=
  { b with messages := b.messages ++
      [{ slack_item := slack_item, user_profile := user_profile,
         openai_agent := openai_agent, added_at := now }] }

/-- Embedding of MessageBatch.has_messages. -/
def MessageBatch.has_messages (b : MessageBatch) : Bool :=
  !b.messages.isEmpty

/-- Embedding of MessageBatch.is_ready_to_process (src/utils.py lines
296-298).  The source reads the seconds attribute of the timedelta
now - created_at; for a nonnegative timedelta of e whole seconds that
attribute is e % 86400, the part of the elapsed time left after whole
days are split off. -/
def MessageBatch.is_ready_to_process (b : MessageBatch) (now : Nat)
    (batch_timeout_seconds : Nat := 30) : Bool :=
  decide (0 < b.messages.length) &&
    decide (batch_timeout_seconds ≤ (now - b.created_at) % 86400)

/-- The two module-level maps of src/utils.py: message_batches is a
defaultdict whose missing keys read as None, batch_timers maps a channel
to its pending timer (identified by an opaque handle). -/
structure CoalescerState where
  message_batches : String → Option MessageBatch
  batch_timers : String → Option Nat

/-- Embedding of add_message_to_batch (src/utils.py lines 311-339): get
or create the batch for the channel, append the message to it, cancel
any existing timer and install a fresh one. -/
def add_message_to_batch (s : CoalescerState) (channel_id : String)
    (slack_item : SlackItem) (user_profile : UserProfile) (openai_agent : Nat)
    (user_id : Int) (now : Nat) (new_timer : Nat) : CoalescerState :=
  let batch : MessageBatch :=
    match s.message_batches channel_id with
    | none => { channel_id := channel_id, user_id := user_id, messages := [],
                created_at := now }
    | some b => b
  let batch := batch.add_message slack_item user_profile openai_agent now
  { message_batches := fun k => if k = channel_id then some batch else s.message_batches k,
    batch_timers := fun k => if k = channel_id then some new_timer else s.batch_timers k }

/-- First half of process_message_batch (src/utils.py lines 342-369): the
guard and everything executed before the orchestrator is invoked.  It
returns none when the function returns early (no batch or an empty
batch); otherwise it returns the state as it stands at the moment
background_batch_analysis_task is entered (timer cancelled and its slot
deleted, batch still attached to its key) together with the batch the
task receives. -/
def flushPhase1 (s : CoalescerState) (channel_id : String) :
    Option (CoalescerState × MessageBatch) :=
  match s.message_batches channel_id with
  | none => none
  | some batch =>
    if batch.messages.isEmpty then none
    else
      some ({ s with batch_timers := fun k =>
                if k = channel_id then none else s.batch_timers k }, batch)

/-- Second half of process_message_batch (lines 371-379): after
background_batch_analysis_task returns, or when it raises, the batch
slot is set to None. -/
def flushPhase2 (s : CoalescerState) (channel_id : String) : CoalescerState :=
  { s with message_batches := fun k =>
      if k = channel_id then none else s.message_batches k }

/-- Embedding of process_message_batch as a whole: phase 1, then the
orchestrator call on the returned batch (which does not touch the
coalescer state), then phase 2. -/
def process_message_batch (s : CoalescerState) (channel_id : String) : CoalescerState :=
  match flushPhase1 s channel_id with
  | none => s
  | some (s1, _batch) => flushPhase2 s1 channel_id

/-- The per-message inputs list built by background_batch_analysis_task
(src/utils.py line 209): usuario is the user_profile dict, mensaje the
raw message text. -/
def message_inputs (messages : List EnrichedMessage) :
    List (UserProfile × Option String) :=
  messages.map (fun m => (m.user_profile, m.slack_item.messageText))

/-- The composed orchestrator input built by
background_batch_analysis_task (src/utils.py lines 212-214): starting
from the empty string, append one Usuario/Mensaje block per message. -/
def messages_text (messages : List EnrichedMessage) : String :=
  (message_inputs messages).foldl
    (fun acc m =>
      acc ++ "Usuario: " ++ userProfileRepr m.1 ++ "\nMensaje: " ++ optStr m.2 ++ "\n")
    ""

/-- Modelled from the spec: the input shape of section 4.3, a single
string concatenating, for each message in arrival order, the user
profile and the raw text.  Used as the reference side of the order
preservation claim. -/
def specComposedInput : List EnrichedMessage → String
  | [] => ""
  | m :: rest =>
      "Usuario: " ++ userProfileRepr m.user_profile ++ "\nMensaje: " ++
        optStr m.slack_item.messageText ++ "\n" ++ specComposedInput rest

/-- The status dict returned by get_batch_status; absent keys are
modelled as none. -/
structure BatchStatus where
  status : String
  message_count : Nat
  created_at : Option Nat
  timeout_seconds : Option Nat
  seconds_since_creation : Option Nat
deriving DecidableEq, Repr

/-- Embedding of get_batch_status (src/utils.py lines 382-396).  As in
is_ready_to_process, the source reads the seconds attribute of the
timedelta now - created_at, which is the elapsed time modulo 86400. -/
def get_batch_status (s : CoalescerState) (channel_id : String) (now : Nat)
    (batch_timeout_seconds : Nat := 30) : BatchStatus :=
  match s.message_batches channel_id with
  | none =>
      { status := "no_batch", message_count := 0, created_at := none,
        timeout_seconds := none, seconds_since_creation := none }
  | some batch =>
      { status := "active", message_count := batch.messages.length,
        created_at := some batch.created_at,
        timeout_seconds := some batch_timeout_seconds,
        seconds_since_creation := some ((now - batch.created_at) % 86400) }

end Batching

namespace Webhook

/-- The event object of an event_callback payload, reduced to the fields
the handler reads. -/
structure EventData where
  ty : Option String
  subtype : Option String
  bot_id : Option String
  channel : Option String
  user : Option String
  text : Option String
  ts : Option String
  channel_type : Option String
deriving DecidableEq, Repr

/-- A parsed webhook payload.  A missing event key behaves as the empty
dict, i.e. an EventData with every field none. -/
structure WebhookData where
  challenge : Option String
  ty : Option String
  team_id : Option String
  event : EventData
deriving DecidableEq, Repr

/-- Embedding of create_slack_message_item (src/utils.py lines 94-122)
restricted to the fields carried into the batching pipeline; item_id
stands for the generated uuid. -/
def create_slack_message_item (data : WebhookData) (item_id : String) :
    Batching.SlackItem :=
  { messageId := item_id, teamId := data.team_id,
    channelId := data.event.channel, userId := data.event.user,
    messageText := data.event.text, timestamp := data.event.ts }

/-- The user row found by get_user_by_slack_team_id. -/
structure UserRec where
  id : Int
  slack_token : Option String
deriving DecidableEq, Repr

/-- One association row returned by
get_notion_databases_for_slack_channel. -/
structure LinkedDb where
  database_name : String
  notion_database_id_external : String
  auto_sync : Bool
deriving DecidableEq, Repr

/-- The part of the Slack user profile the handler reads. -/
structure SlackUserInfo where
  title : Option String
  real_name : Option String
deriving DecidableEq, Repr

/-- Environment of one webhook invocation: the outcome of every
downstream call the handler makes, in source order.  Except errors model
raised exceptions (HTTPException from the enrichment helpers, database
errors, and so on), all of which the handler's final except branch
catches.  classify_decision never raises, so its outcome is a plain
value; save_to_dynamodb returns a bool and never raises. -/
structure WebhookEnv where
  user_lookup : Except String (Option UserRec)
  notion_databases : Except String (List LinkedDb)
  channel_name : Except String (Option String)
  user_info : Except String SlackUserInfo
  message_link : Except String String
  agent : Except String (Option Nat)
  classify : ClassResult
  table_available : Bool
  save_ok : Bool
  batch_add : Except String Unit

/-- The downstream operations the handler can perform, recorded in
execution order so that claims about the pipeline continuing or stopping
can be stated. -/
inductive Effect where
  | userLookup
  | associationsQuery
  | profileFetch
  | permalinkFetch
  | agentInit
  | classifierCall
  | recordWrite
  | batchEnqueue
deriving DecidableEq, Repr

/-- The JSON bodies the handler can answer with. -/
inductive WebhookBody where
  | challenge (value : String)
  | okError (error : String)
  | okMessage (message : String)
deriving DecidableEq, Repr

/-- An HTTP response; FastAPI's Response defaults to status 200 and both
except branches pass status_code 200 explicitly. -/
structure HttpResponse where
  status : Nat
  body : WebhookBody
deriving DecidableEq, Repr

/-- The internal server error response produced by the handler's final
except branch. -/
def internalError : HttpResponse :=
  { status := 200, body := .okError "Error interno del servidor" }

/-- Embedding of the body of slack_messages_webhook
(src/orchestration/routes.py lines 99-220) on a successfully parsed
payload, together with the list of downstream operations performed.  Any
Except error short-circuits to the final except branch's 200 response;
operations already performed stay recorded. -/
def webhookRun (data : WebhookData) (env : WebhookEnv) (item_id : String) :
    HttpResponse × List Effect :=
  match data.challenge with
  | some c => ({ status := 200, body := .challenge c }, [])
  | none =>
    if data.ty ≠ some "event_callback" then
      ({ status := 200, body := .okError "Tipo de evento no soportado" }, [])
    else if data.event.ty ≠ some "message" ∨ data.event.subtype = some "message_deleted" then
      ({ status := 200, body := .okMessage "Evento no es mensaje, ignorado" }, [])
    else if data.event.bot_id.isSome then
      ({ status := 200, body := .okMessage "Mensaje de bot ignorado" }, [])
    else
      match env.user_lookup with
      | .error _ => (internalError, [.userLookup])
      | .ok none =>
          ({ status := 200, body := .okError "Usuario no encontrado" }, [.userLookup])
      | .ok (some _user) =>
        match env.notion_databases with
        | .error _ => (internalError, [.userLookup, .associationsQuery])
        | .ok dbs =>
          if dbs.isEmpty then
            ({ status := 200, body := .okError "Canal no tiene asociaciones con Notion" },
             [.userLookup, .associationsQuery])
          else
            match env.channel_name with
            | .error _ => (internalError, [.userLookup, .associationsQuery])
            | .ok _cn =>
              match env.user_info with
              | .error _ =>
                  (internalError, [.userLookup, .associationsQuery, .profileFetch])
              | .ok _info =>
                match env.message_link with
                | .error _ =>
                    (internalError,
                     [.userLookup, .associationsQuery, .profileFetch, .permalinkFetch])
                | .ok _link =>
                  match env.agent with
                  | .error _ =>
                      (internalError,
                       [.userLookup, .associationsQuery, .profileFetch,
                        .permalinkFetch, .agentInit])
                  | .ok none =>
                      ({ status := 200, body := .okError "Agente no disponible" },
                       [.userLookup, .associationsQuery, .profileFetch,
                        .permalinkFetch, .agentInit])
                  | .ok (some _agent) =>
                    match env.batch_add with
                    | .error _ =>
                        (internalError,
                         [.userLookup, .associationsQuery, .profileFetch,
                          .permalinkFetch, .agentInit, .classifierCall,
                          .recordWrite, .batchEnqueue])
                    | .ok _ =>
                        ({ status := 200,
                           body := .okMessage "Mensaje agregado al batch para procesamiento" },
                         [.userLookup, .associationsQuery, .profileFetch,
                          .permalinkFetch, .agentInit, .classifierCall,
                          .recordWrite, .batchEnqueue])

/-- The request body as the handler first sees it: either parsing raised
json.JSONDecodeError, or it produced a payload. -/
inductive JsonBody where
  | malformed
  | parsed (data : WebhookData)

/-- Embedding of slack_messages_webhook including its two except
branches: malformed JSON answers 200 with an error field, anything
raised later answers 200 with an error field. -/
def slack_messages_webhook (body : JsonBody) (env : WebhookEnv) (item_id : String) :
    HttpResponse × List Effect :=
  match body with
  | .malformed => ({ status := 200, body := .okError "JSON inválido" }, [])
  | .parsed data => webhookRun data env item_id

end Webhook

section Helpers

/-- The ids of a list of tool calls, in order. -/
def idsOf (l : List Adapter.ToolCall) : List String :=
  l.map (fun tc => tc.id)

lemma dedupAppend_nodup {acc new : List Adapter.ToolCall}
    (h1 : (idsOf acc).Nodup) (h2 : (idsOf new).Nodup) :
    (idsOf (Adapter.dedupAppend acc new)).Nodup := by
  unfold Adapter.dedupAppend
  rw [idsOf, List.map_append, List.nodup_append]
  refine ⟨h1, h2.sublist ((List.filter_sublist new).map _), ?_⟩
  intro x hx hx2
  obtain ⟨tc, htc, rfl⟩ := List.mem_map.mp hx2
  have hfil := (List.mem_filter.mp htc).2
  simp only [Bool.not_eq_true', List.any_eq_false, beq_iff_eq] at hfil
  obtain ⟨e, he, heq⟩ := List.mem_map.mp hx
  exact hfil e he heq

lemma chatLoop_nodup (env : Adapter.ChatEnv)
    (hc : ∀ k r, env.continuation k = .ok r →
        (idsOf (Adapter.extract_response_content r.output).tool_calls).Nodup) :
    ∀ (fuel : Nat) (st : Adapter.LoopState),
      (idsOf st.all_tool_calls).Nodup →
      (idsOf (Adapter.extract_response_content st.current.output).tool_calls).Nodup →
      (idsOf (Adapter.chatLoop env fuel st).all_tool_calls).Nodup ∧
      (idsOf (Adapter.extract_response_content
          (Adapter.chatLoop env fuel st).current.output).tool_calls).Nodup := by
  intro fuel
  induction fuel with
  | zero => intro st h1 h2; exact ⟨h1, h2⟩
  | succ n ih =>
    intro st h1 h2
    rw [Adapter.chatLoop]
    by_cases hreq :
        (Adapter.extract_response_content st.current.output).approval_requests.isEmpty
    · simp only [hreq, if_true]
      exact ⟨dedupAppend_nodup h1 h2, h2⟩
    · simp only [hreq, if_false, Bool.false_eq_true]
      cases hcont : env.continuation st.approval_iterations with
      | error e => exact ⟨dedupAppend_nodup h1 h2, h2⟩
      | ok resp =>
        have ha := hc _ _ hcont
        by_cases hreq2 :
            (Adapter.extract_response_content resp.output).approval_requests.isEmpty
        · simp only [hreq2, if_true]
          exact ⟨dedupAppend_nodup (dedupAppend_nodup h1 h2) ha, ha⟩
        · simp only [hreq2, if_false, Bool.false_eq_true]
          exact ih _ (dedupAppend_nodup (dedupAppend_nodup h1 h2) ha) ha

/-- Well-formedness of a chat environment: every response the provider
can hand back carries pairwise-distinct tool-call ids within itself. -/
def EnvOk (env : Adapter.ChatEnv) : Prop :=
  (∀ r, env.initial = .ok r →
      (idsOf (Adapter.extract_response_content r.output).tool_calls).Nodup) ∧
  (∀ k r, env.continuation k = .ok r →
      (idsOf (Adapter.extract_response_content r.output).tool_calls).Nodup)

lemma messages_text_foldl (ms : List Batching.EnrichedMessage) :
    ∀ acc : String,
      (Batching.message_inputs ms).foldl
        (fun acc m =>
          acc ++ "Usuario: " ++ Batching.userProfileRepr m.1 ++ "\nMensaje: " ++
            optStr m.2 ++ "\n") acc
      = acc ++ Batching.specComposedInput ms := by
  induction ms with
  | nil => intro acc; simp [Batching.message_inputs, Batching.specComposedInput,
      String.append_empty]
  | cons m rest ih =>
    intro acc
    simp only [Batching.message_inputs, List.map_cons, List.foldl_cons,
      Batching.specComposedInput]
    rw [← Batching.message_inputs, ih]
    simp [String.append_assoc]

end Helpers

/-- Claim C9: for every batch, the composed input string handed to the
orchestrator at flush concatenates, for each message in append order,
that message's user profile and its raw text; appending adds at the end
of the messages list, so messages appear in exactly the order they were
appended. -/
theorem claim_C9_order_preservation (ms : List Batching.EnrichedMessage)
    (b : Batching.MessageBatch) (si : Batching.SlackItem)
    (up : Batching.UserProfile) (ag now : Nat) :
    Batching.messages_text ms = Batching.specComposedInput ms
    ∧ (b.add_message si up ag now).messages
        = b.messages ++
            [{ slack_item := si, user_profile := up, openai_agent := ag, added_at := now }] := by
  constructor
  · rw [Batching.messages_text, messages_text_foldl, String.empty_append]
  · rfl

/-- Claim C10: the Status operation reports seconds_since_creation as the
elapsed time since created_at modulo 86400 (the timedelta seconds
component), the readiness check compares the same wrapped quantity
against the timeout, and for a batch older than one day the reported age
is strictly smaller than the true elapsed time and readiness can turn
false again. -/
theorem claim_C10_wrapped_age (s : Batching.CoalescerState) (key : String)
    (b : Batching.MessageBatch) (now timeout : Nat)
    (hb : s.message_batches key = some b) :
    (Batching.get_batch_status s key now timeout).seconds_since_creation
        = some ((now - b.created_at) % 86400)
    ∧ (b.is_ready_to_process now timeout = true ↔
        0 < b.messages.length ∧ timeout ≤ (now - b.created_at) % 86400)
    ∧ (86400 ≤ now - b.created_at →
        (Batching.get_batch_status s key now timeout).seconds_since_creation.getD 0
          < now - b.created_at)
    ∧ ((now - b.created_at) % 86400 < timeout →
        b.is_ready_to_process now timeout = false) := by
  refine ⟨?_, ?_, ?_, ?_⟩
  · simp [Batching.get_batch_status, hb]
  · simp [Batching.MessageBatch.is_ready_to_process]
  · intro h
    simp only [Batching.get_batch_status, hb, Option.getD_some]
    calc (now - b.created_at) % 86400 < 86400 := Nat.mod_lt _ (by norm_num)
      _ ≤ now - b.created_at := h
  · intro h
    have hnot : ¬ (timeout ≤ (now - b.created_at) % 86400) := Nat.not_le.mpr h
    simp [Batching.MessageBatch.is_ready_to_process, hnot]

/-- Witness slack item for claims about the batching pipeline. -/
def slackItemW : Batching.SlackItem :=
  { messageId := "m1", teamId := some "T1", channelId := some "C1",
    userId := some "U1", messageText := some "decidimos usar JWT para auth",
    timestamp := some "1.0" }

/-- Witness user profile for claims about the batching pipeline. -/
def profileW : Batching.UserProfile :=
  { rol := some "dev", nombre := some "Ana",
    enlace_mensaje := "https://slack.test/p1" }

/-- Witness enriched message for claims about the batching pipeline. -/
def messageW : Batching.EnrichedMessage :=
  { slack_item := slackItemW, user_profile := profileW, openai_agent := 7,
    added_at := 100 }

/-- Witness batch for claim C10: created at second 100, one message,
inspected 86405 seconds later with the default 30 second timeout. -/
def batchW10 : Batching.MessageBatch :=
  { channel_id := "C1", user_id := 1, messages := [messageW], created_at := 100 }

/-- Witness coalescer state for claim C10. -/
def stateW10 : Batching.CoalescerState :=
  { message_batches := fun k => if k = "C1" then some batchW10 else none,
    batch_timers := fun _ => none }

theorem claim_C10_witness :
    stateW10.message_batches "C1" = some batchW10
    ∧ ((Batching.get_batch_status stateW10 "C1" 86505 30).seconds_since_creation
          = some ((86505 - batchW10.created_at) % 86400)
      ∧ (batchW10.is_ready_to_process 86505 30 = true ↔
          0 < batchW10.messages.length ∧ 30 ≤ (86505 - batchW10.created_at) % 86400)
      ∧ (86400 ≤ 86505 - batchW10.created_at →
          (Batching.get_batch_status stateW10 "C1" 86505 30).seconds_since_creation.getD 0
            < 86505 - batchW10.created_at)
      ∧ ((86505 - batchW10.created_at) % 86400 < 30 →
          batchW10.is_ready_to_process 86505 30 = false)) :=
  ⟨rfl, claim_C10_wrapped_age stateW10 "C1" batchW10 86505 30 rfl⟩

/-- Claim C1 (amended): on timer fire, process_message_batch clears the
timer slot before any downstream work, but the Batch stays attached to
its key while the orchestrator call is in progress and is detached only
after the call returns; an append on the same key arriving during the
call therefore mutates the batch being flushed (no new Batch is
created), and the appended message is discarded when the flush
completes. -/
theorem claim_C1_amended (s : Batching.CoalescerState) (key : String)
    (s1 : Batching.CoalescerState) (b : Batching.MessageBatch)
    (h : Batching.flushPhase1 s key = some (s1, b)) :
    s1.batch_timers key = none
    ∧ s1.message_batches key = some b
    ∧ (Batching.process_message_batch s key).message_batches key = none
    ∧ ∀ (si : Batching.SlackItem) (up : Batching.UserProfile)
        (ag : Nat) (uid : Int) (now tmr : Nat),
        (Batching.add_message_to_batch s1 key si up ag uid now tmr).message_batches key
            = some (b.add_message si up ag now)
        ∧ (Batching.flushPhase2
              (Batching.add_message_to_batch s1 key si up ag uid now tmr)
              key).message_batches key = none := by
  unfold Batching.flushPhase1 at h
  cases hmb : s.message_batches key with
  | none => rw [hmb] at h; exact absurd h (by simp)
  | some batch =>
    rw [hmb] at h
    dsimp only at h
    by_cases hemp : batch.messages.isEmpty
    · rw [if_pos hemp] at h; exact absurd h (by simp)
    · rw [if_neg hemp] at h
      obtain ⟨hs1, hb⟩ : ({ s with batch_timers := fun k =>
            if k = key then none else s.batch_timers k } : Batching.CoalescerState) = s1
          ∧ batch = b := by
        constructor
        · exact congrArg Prod.fst (Option.some.inj h)
        · exact congrArg Prod.snd (Option.some.inj h)
      subst hs1
      subst hb
      refine ⟨by simp, by simpa using hmb, ?_, ?_⟩
      · simp [Batching.process_message_batch, Batching.flushPhase1, hmb, hemp,
          Batching.flushPhase2]
      · intro si up ag uid now tmr
        constructor
        · simp [Batching.add_message_to_batch, hmb]
        · simp [Batching.flushPhase2]

/-- Coalescer state for the claim C1 counterexample and witness: one
batch with one message at key C1, with a pending timer. -/
def batchC1 : Batching.MessageBatch :=
  { channel_id := "C1", user_id := 1, messages := [messageW], created_at := 50 }

/-- Coalescer maps at the moment the timer for C1 fires. -/
def stateC1 : Batching.CoalescerState :=
  { message_batches := fun k => if k = "C1" then some batchC1 else none,
    batch_timers := fun k => if k = "C1" then some 3 else none }

/-- The coalescer state during the downstream orchestrator call of the
flush of C1: exactly what flushPhase1 returns on stateC1. -/
def stateC1During : Batching.CoalescerState :=
  { message_batches := stateC1.message_batches,
    batch_timers := fun k => if k = "C1" then none else stateC1.batch_timers k }

/-- Claim C1 counterexample: at the moment the flush of channel C1 hands
the batch to the orchestrator, the batch is still attached to its key
(refuting that it was detached before any downstream work); an append
arriving at that moment extends the batch being flushed instead of
creating a fresh one-message batch, and once the flush completes the key
is cleared, discarding that append. -/
theorem claim_C1_counterexample :
    (Batching.flushPhase1 stateC1 "C1").map (fun p => p.1.message_batches "C1")
        = some (some batchC1)
    ∧ (Batching.flushPhase1 stateC1 "C1").map
        (fun p => (Batching.add_message_to_batch p.1 "C1" slackItemW profileW 7 1 60
            9).message_batches "C1")
        = some (some (batchC1.add_message slackItemW profileW 7 60))
    ∧ (batchC1.add_message slackItemW profileW 7 60).messages.length = 2
    ∧ (Batching.flushPhase1 stateC1 "C1").map
        (fun p => (Batching.flushPhase2
            (Batching.add_message_to_batch p.1 "C1" slackItemW profileW 7 1 60 9)
            "C1").message_batches "C1")
        = some none := by
  refine ⟨?_, ?_, rfl, ?_⟩ <;> rfl

theorem claim_C1_witness :
    Batching.flushPhase1 stateC1 "C1" = some (stateC1During, batchC1)
    ∧ (stateC1During.batch_timers "C1" = none
      ∧ stateC1During.message_batches "C1" = some batchC1
      ∧ (Batching.process_message_batch stateC1 "C1").message_batches "C1" = none
      ∧ ∀ (si : Batching.SlackItem) (up : Batching.UserProfile)
          (ag : Nat) (uid : Int) (now tmr : Nat),
          (Batching.add_message_to_batch stateC1During "C1" si up ag uid
              now tmr).message_batches "C1"
              = some (batchC1.add_message si up ag now)
          ∧ (Batching.flushPhase2
                (Batching.add_message_to_batch stateC1During "C1" si up ag uid now tmr)
                "C1").message_batches "C1" = none) :=
  ⟨rfl, claim_C1_amended stateC1 "C1" stateC1During batchC1 rfl⟩

/-- Environment for the claim C7 counterexample and witness: the initial
responses.create call raises a transport error. -/
def envFailC7 : Adapter.ChatEnv :=
  { initial := .error "Connection error", continuation := fun _ => .error "Connection error" }

/-- Claim C7 counterexample: when the initial LLM call fails, the dict
returned by chat stores None under the response key (not a string of the
form Error: ...) and carries no tool_calls key at all (not an empty
list). -/
theorem claim_C7_counterexample :
    (Adapter.chat envFailC7).response = none
    ∧ (Adapter.chat envFailC7).tool_calls ≠ some []
    ∧ (Adapter.chat envFailC7).tool_calls = none
    ∧ (Adapter.chat envFailC7).success = false
    ∧ (Adapter.chat envFailC7).error = some "Connection error" := by
  refine ⟨rfl, ?_, rfl, rfl, rfl⟩
  decide

/-- Claim C7 (amended): if the LLM transport call fails before any
successful round, chat returns success false with the exception text
under error, the value None under response, and no other keys: in
particular there is no Error-prefixed response string and no (empty)
tool-call list. -/
theorem claim_C7_amended (env : Adapter.ChatEnv) (e : String)
    (h : env.initial = .error e) :
    Adapter.chat env
      = { success := false, error := some e, response := none, content := none,
          tool_calls := none, tool_stats := none, response_id := none,
          approval_iterations := none, total_approvals_processed := none } := by
  unfold Adapter.chat
  rw [h]

theorem claim_C7_witness :
    envFailC7.initial = .error "Connection error"
    ∧ Adapter.chat envFailC7
        = { success := false, error := some "Connection error", response := none,
            content := none, tool_calls := none, tool_stats := none,
            response_id := none, approval_iterations := none,
            total_approvals_processed := none } :=
  ⟨rfl, claim_C7_amended envFailC7 "Connection error" rfl⟩

/-- Environment for the claim C5 counterexample: the classification
service is configured and reachable, and answers with a label other than
NONE. -/
def envC5 : OrchRoutes.ClassifyEnv :=
  { classification_service := some "http://classifier",
    rpc := .ok { classification := some "DECISION", confidence := some (9/10) } }

/-- Claim C5 counterexample: usamos jwt has fewer than 4
whitespace-separated tokens, yet the webhook-side classify_decision
still calls the external endpoint and hands back whatever the service
answered, not the pair NONE and 0. -/
theorem claim_C5_counterexample :
    pyTokenCount "usamos jwt" < 4
    ∧ OrchRoutes.classify_decision "usamos jwt" envC5
        = ({ classification := "DECISION", confidence := 9/10 }, true) := by
  constructor
  · decide
  · show OrchRoutes.classify_decision "usamos jwt" envC5 = _
    simp only [OrchRoutes.classify_decision, envC5, Option.getD_some]
    have h4 : roundTo4 (9/10) = 9/10 := by
      unfold roundTo4
      norm_num
    rw [h4]

/-- Claim C5 (amended): the webhook-side classify_decision is total with
the transport fallback: an unset service URL yields the pair
GENERAL_CONVERSATION and one half without any call, a failed RPC yields
exactly the same pair after calling; it performs no token-count
short-circuit.  The fewer-than-4-tokens rule lives in the classifier
service's own classify_decision, which answers NONE with confidence 0
without invoking its model. -/
theorem claim_C5_amended :
    (∀ (text : String) (env : OrchRoutes.ClassifyEnv) (e : String),
        env.rpc = .error e → env.classification_service.isSome →
        OrchRoutes.classify_decision text env
          = ({ classification := "GENERAL_CONVERSATION", confidence := 1/2 }, true))
    ∧ (∀ (text : String) (env : OrchRoutes.ClassifyEnv),
        env.classification_service = none →
        OrchRoutes.classify_decision text env
          = ({ classification := "GENERAL_CONVERSATION", confidence := 1/2 }, false))
    ∧ (∀ (text : String) (p : String × ℚ), pyTokenCount text < 4 →
        MainApp.classify_decision text p
          = ({ classification := "NONE", confidence := 0 }, false)) := by
  refine ⟨?_, ?_, ?_⟩
  · intro text env e herr hsome
    obtain ⟨svc, rpc⟩ := env
    obtain ⟨u, rfl⟩ := Option.isSome_iff_exists.mp hsome
    simp only at herr
    simp [OrchRoutes.classify_decision, herr]
  · intro text env hnone
    obtain ⟨svc, rpc⟩ := env
    simp only at hnone
    simp [OrchRoutes.classify_decision, hnone]
  · intro text p hshort
    simp [MainApp.classify_decision, hshort]

/-- Environment for the claim C5 witness: a configured service whose RPC
times out. -/
def envW5 : OrchRoutes.ClassifyEnv :=
  { classification_service := some "http://classifier", rpc := .error "timeout" }

theorem claim_C5_witness :
    (envW5.rpc = .error "timeout" ∧ envW5.classification_service.isSome
      ∧ OrchRoutes.classify_decision "que opinan de esto equipo" envW5
          = ({ classification := "GENERAL_CONVERSATION", confidence := 1/2 }, true))
    ∧ (pyTokenCount "usamos jwt" < 4
      ∧ MainApp.classify_decision "usamos jwt" ("DECISION", 1/2)
          = ({ classification := "NONE", confidence := 0 }, false)) :=
  ⟨⟨rfl, rfl, claim_C5_amended.1 "que opinan de esto equipo" envW5 "timeout" rfl rfl⟩,
   ⟨by decide, claim_C5_amended.2.2 "usamos jwt" ("DECISION", 1/2) (by decide)⟩⟩

/-- Python truthiness applied to an optional authorization string: the
source stores the authorization key only for a non-None, non-empty
token. -/
def optTruthy : Option String → Option String
  | none => none
  | some a => if a == "" then none else some a

/-- Credentials for the claim C8 counterexample: the documentation
(Notion) token is missing, the code-host (GitHub) token is present. -/
def credsC8 : OrchUtils.UserCredentials :=
  { github_token := some "gh_token", slack_token := some "xoxb",
    notion_token := none, openai_api_key := none }

/-- Claim C8 counterexample: with the Notion token missing, the factory
still makes all three MCP registrations; the Notion entry is present
(not skipped), merely without an authorization key. -/
theorem claim_C8_counterexample :
    (OrchUtils.initialize_openai_agent credsC8 (some "sk-test")).map
        (fun a => a.tools.map (fun t => (t.server_label, t.authorization)))
      = some [("Notion", none), ("GitHub", some "gh_token"),
              ("Get_Github_File_Content", some "gh_token")]
    ∧ (OrchUtils.initialize_openai_agent credsC8 (some "sk-test")).map
        (fun a => a.tools.length) = some 3 := by
  refine ⟨?_, ?_⟩ <;> rfl

/-- Claim C8 (amended): whenever the adapter constructor has an API key,
the factory returns an orchestrator carrying exactly the three
registrations Notion, GitHub and Get_Github_File_Content in that order;
a missing (or empty) documentation or code-host token only omits the
authorization key of the corresponding entries, it never skips a
registration. -/
theorem claim_C8_amended (creds : OrchUtils.UserCredentials) (key : String) :
    ((OrchUtils.initialize_openai_agent creds (some key)).map
        (fun a => a.tools.map (fun t => t.server_label)))
      = some ["Notion", "GitHub", "Get_Github_File_Content"]
    ∧ ((OrchUtils.initialize_openai_agent creds (some key)).map
        (fun a => a.tools.map (fun t => t.authorization)))
      = some [optTruthy creds.notion_token, optTruthy creds.github_token,
              optTruthy creds.github_token] := by
  obtain ⟨gh, sl, no, oa⟩ := creds
  constructor
  · cases no <;> cases gh <;>
      simp [OrchUtils.initialize_openai_agent, Adapter.add_mcp_tool] <;>
      split_ifs <;> simp
  · cases no <;> cases gh <;>
      simp [OrchUtils.initialize_openai_agent, Adapter.add_mcp_tool, optTruthy] <;>
      split_ifs <;> simp

/-- Claim C2: slack_messages_webhook answers HTTP status 200 for every
request body and every outcome of its downstream calls, malformed JSON
included; malformed JSON additionally gets a body with an error
field. -/
theorem claim_C2_always_200 :
    (∀ (body : Webhook.JsonBody) (env : Webhook.WebhookEnv) (item_id : String),
        (Webhook.slack_messages_webhook body env item_id).1.status = 200)
    ∧ (∀ (env : Webhook.WebhookEnv) (item_id : String),
        (Webhook.slack_messages_webhook Webhook.JsonBody.malformed env item_id).1.body
          = Webhook.WebhookBody.okError "JSON inválido") := by
  constructor
  · intro body env item_id
    cases body with
    | malformed => rfl
    | parsed data =>
      show (Webhook.webhookRun data env item_id).1.status = 200
      unfold Webhook.webhookRun
      cases data.challenge with
      | some c => rfl
      | none =>
        dsimp only
        split
        · rfl
        · split
          · rfl
          · split
            · rfl
            · cases env.user_lookup with
              | error e => rfl
              | ok u =>
                cases u with
                | none => rfl
                | some user =>
                  dsimp only
                  cases env.notion_databases with
                  | error e => rfl
                  | ok dbs =>
                    dsimp only
                    split
                    · rfl
                    · cases env.channel_name with
                      | error e => rfl
                      | ok cn =>
                        cases env.user_info with
                        | error e => rfl
                        | ok info =>
                          cases env.message_link with
                          | error e => rfl
                          | ok link =>
                            cases env.agent with
                            | error e => rfl
                            | ok ag =>
                              cases ag with
                              | none => rfl
                              | some agent =>
                                cases env.batch_add with
                                | error e => rfl
                                | ok u => rfl
  · intro env item_id
    rfl

/-- Event object for the claim C4 counterexample and witness. -/
def eventC4 : Webhook.EventData :=
  { ty := some "message", subtype := none, bot_id := none,
    channel := some "C1", user := some "U1", text := some "hola equipo",
    ts := some "1.0", channel_type := some "channel" }

/-- Payload for the claim C4 counterexample and witness: a genuine
channel message from a known team. -/
def dataC4 : Webhook.WebhookData :=
  { challenge := none, ty := some "event_callback", team_id := some "T1",
    event := eventC4 }

/-- Linked database row for the claim C4 counterexample and witness. -/
def linkedDbC4 : Webhook.LinkedDb :=
  { database_name := "decisiones", notion_database_id_external := "ndb1",
    auto_sync := true }

/-- Environment for the claim C4 counterexample and witness: routing and
association lookup succeed, but the user-profile enrichment call raises
an HTTPException. -/
def envC4 : Webhook.WebhookEnv :=
  { user_lookup := .ok (some { id := 1, slack_token := some "xoxb" }),
    notion_databases := .ok [linkedDbC4],
    channel_name := .ok (some "general"),
    user_info := .error "HTTPException 401 invalid_auth",
    message_link := .ok "https://slack.test/p1",
    agent := .ok (some 1),
    classify := { classification := "DECISION", confidence := 1/2 },
    table_available := true, save_ok := true, batch_add := .ok () }

/-- Claim C4 counterexample: when the user-profile enrichment call
fails, the handler does not substitute empty strings and continue; the
exception reaches the top-level except branch, the response is the
internal-error body, and neither classification nor the record write nor
the batch enqueue happens. -/
theorem claim_C4_counterexample :
    (Webhook.slack_messages_webhook (Webhook.JsonBody.parsed dataC4) envC4 "m1").1
        = Webhook.internalError
    ∧ (Webhook.slack_messages_webhook (Webhook.JsonBody.parsed dataC4) envC4 "m1").2
        = [.userLookup, .associationsQuery, .profileFetch]
    ∧ Webhook.Effect.classifierCall
        ∉ (Webhook.slack_messages_webhook (Webhook.JsonBody.parsed dataC4) envC4 "m1").2
    ∧ Webhook.Effect.recordWrite
        ∉ (Webhook.slack_messages_webhook (Webhook.JsonBody.parsed dataC4) envC4 "m1").2
    ∧ Webhook.Effect.batchEnqueue
        ∉ (Webhook.slack_messages_webhook (Webhook.JsonBody.parsed dataC4) envC4 "m1").2 := by
  refine ⟨rfl, rfl, ?_, ?_, ?_⟩ <;> decide

/-- Claim C4 (amended): an enrichment failure on a routed message (the
user-profile lookup or the permalink lookup raising) is fatal for that
message: the handler's top-level except branch answers 200 with the
internal-error body, and the pipeline does not continue — no empty
strings are substituted and classification, classification-record write
and batch enqueue are all skipped. -/
theorem claim_C4_amended (data : Webhook.WebhookData) (env : Webhook.WebhookEnv)
    (item_id : String) (e : String) (u : Webhook.UserRec)
    (dbs : List Webhook.LinkedDb) (cn : Option String)
    (h1 : data.challenge = none) (h2 : data.ty = some "event_callback")
    (h3 : data.event.ty = some "message")
    (h4 : data.event.subtype ≠ some "message_deleted")
    (h5 : data.event.bot_id = none)
    (h6 : env.user_lookup = .ok (some u))
    (h7 : env.notion_databases = .ok dbs) (h8 : dbs ≠ [])
    (h9 : env.channel_name = .ok cn)
    (h10 : env.user_info = .error e
        ∨ ∃ info, env.user_info = .ok info ∧ env.message_link = .error e) :
    (Webhook.webhookRun data env item_id).1 = Webhook.internalError
    ∧ Webhook.Effect.classifierCall ∉ (Webhook.webhookRun data env item_id).2
    ∧ Webhook.Effect.recordWrite ∉ (Webhook.webhookRun data env item_id).2
    ∧ Webhook.Effect.batchEnqueue ∉ (Webhook.webhookRun data env item_id).2 := by
  have hdbs : dbs.isEmpty = false := by
    cases dbs with
    | nil => exact absurd rfl h8
    | cons a l => rfl
  rcases h10 with h10 | ⟨info, h10, h11⟩
  · have hrun : Webhook.webhookRun data env item_id
        = (Webhook.internalError, [.userLookup, .associationsQuery, .profileFetch]) := by
      unfold Webhook.webhookRun
      rw [h1]
      dsimp only
      rw [if_neg (by simp [h2]), if_neg (by simp [h3, h4]), if_neg (by simp [h5]),
        h6, h7]
      dsimp only
      rw [if_neg (by simp [hdbs]), h9, h10]
    rw [hrun]
    refine ⟨rfl, ?_, ?_, ?_⟩ <;> decide
  · have hrun : Webhook.webhookRun data env item_id
        = (Webhook.internalError,
           [.userLookup, .associationsQuery, .profileFetch, .permalinkFetch]) := by
      unfold Webhook.webhookRun
      rw [h1]
      dsimp only
      rw [if_neg (by simp [h2]), if_neg (by simp [h3, h4]), if_neg (by simp [h5]),
        h6, h7]
      dsimp only
      rw [if_neg (by simp [hdbs]), h9, h10, h11]
    rw [hrun]
    refine ⟨rfl, ?_, ?_, ?_⟩ <;> decide

theorem claim_C4_witness :
    (dataC4.challenge = none ∧ dataC4.ty = some "event_callback"
      ∧ dataC4.event.ty = some "message"
      ∧ dataC4.event.subtype ≠ some "message_deleted"
      ∧ dataC4.event.bot_id = none
      ∧ envC4.user_lookup = .ok (some { id := 1, slack_token := some "xoxb" })
      ∧ envC4.notion_databases = .ok [linkedDbC4]
      ∧ [linkedDbC4] ≠ []
      ∧ envC4.channel_name = .ok (some "general")
      ∧ envC4.user_info = .error "HTTPException 401 invalid_auth")
    ∧ ((Webhook.webhookRun dataC4 envC4 "m1").1 = Webhook.internalError
      ∧ Webhook.Effect.classifierCall ∉ (Webhook.webhookRun dataC4 envC4 "m1").2
      ∧ Webhook.Effect.recordWrite ∉ (Webhook.webhookRun dataC4 envC4 "m1").2
      ∧ Webhook.Effect.batchEnqueue ∉ (Webhook.webhookRun dataC4 envC4 "m1").2) :=
  ⟨⟨rfl, rfl, rfl, by decide, rfl, rfl, rfl, by decide, rfl, rfl⟩,
   claim_C4_amended dataC4 envC4 "m1" "HTTPException 401 invalid_auth"
     { id := 1, slack_token := some "xoxb" } [linkedDbC4]
     (some "general") rfl rfl rfl (by decide) rfl rfl rfl (by decide) rfl
     (Or.inl rfl)⟩

lemma roundTo2_nonneg {q : ℚ} (h : 0 ≤ q) : 0 ≤ roundTo2 q := by
  unfold roundTo2
  have h1 : (0 : ℤ) ≤ round (q * 100) := by
    have h2 : round (0 : ℚ) ≤ round (q * 100) := by
      rw [round_eq, round_eq]
      exact Int.floor_mono (by linarith)
    simpa using h2
  have h3 : (0 : ℚ) ≤ ((round (q * 100) : ℤ) : ℚ) := by exact_mod_cast h1
  positivity

lemma roundTo2_le_100 {q : ℚ} (h : q ≤ 100) : roundTo2 q ≤ 100 := by
  unfold roundTo2
  have h1 : round (q * 100) ≤ round ((10000 : ℚ)) := by
    rw [round_eq, round_eq]
    exact Int.floor_mono (by linarith)
  have h2 : round ((10000 : ℚ)) = 10000 := by norm_num
  have h3 : ((round (q * 100) : ℤ) : ℚ) ≤ 10000 := by
    exact_mod_cast h1.trans (le_of_eq h2)
  rw [div_le_iff₀ (by norm_num : (0 : ℚ) < 100)]
  linarith

/-- Claim C3 (amended): for every list of accumulated tool calls the
derived statistics satisfy total = successful + failed and
0 ≤ successRate ≤ 100; successRate is round(100 × successful/total, 2)
when the list is non-empty and 0 when it is empty; and successRate is 0
whenever no call succeeded — in particular successRate = 0 does not
imply total = 0. -/
theorem claim_C3_amended (tool_calls : List Adapter.ToolCall) :
    (Adapter.get_tool_call_stats tool_calls).total
        = (Adapter.get_tool_call_stats tool_calls).successful
          + (Adapter.get_tool_call_stats tool_calls).failed
    ∧ 0 ≤ (Adapter.get_tool_call_stats tool_calls).success_rate
    ∧ (Adapter.get_tool_call_stats tool_calls).success_rate ≤ 100
    ∧ (tool_calls = [] → (Adapter.get_tool_call_stats tool_calls).total = 0
        ∧ (Adapter.get_tool_call_stats tool_calls).success_rate = 0)
    ∧ (tool_calls ≠ [] →
        (Adapter.get_tool_call_stats tool_calls).success_rate
          = roundTo2 (100 * ((Adapter.get_tool_call_stats tool_calls).successful : ℚ)
              / ((Adapter.get_tool_call_stats tool_calls).total : ℚ)))
    ∧ ((tool_calls.filter (fun c => c.success)).length = 0 →
        (Adapter.get_tool_call_stats tool_calls).success_rate = 0) := by
  by_cases hemp : tool_calls.isEmpty
  · have hnil : tool_calls = [] := List.isEmpty_iff.mp hemp
    subst hnil
    refine ⟨rfl, le_refl 0, by norm_num [Adapter.get_tool_call_stats],
      fun _ => ⟨rfl, rfl⟩, ?_, fun _ => rfl⟩
    intro hne
    exact absurd rfl hne
  · have hne : tool_calls ≠ [] := by
      intro hcon
      subst hcon
      exact hemp rfl
    have hstats : Adapter.get_tool_call_stats tool_calls
        = { total := tool_calls.length,
            successful := (tool_calls.filter (fun c => c.success)).length,
            failed := tool_calls.length - (tool_calls.filter (fun c => c.success)).length,
            success_rate := roundTo2
              ((((tool_calls.filter (fun c => c.success)).length : ℚ)
                / (tool_calls.length : ℚ)) * 100) } := by
      simp [Adapter.get_tool_call_stats, hemp]
    have hST : (tool_calls.filter (fun c => c.success)).length ≤ tool_calls.length :=
      tool_calls.length_filter_le _
    have hT : 0 < tool_calls.length := List.length_pos.mpr hne
    have hq0 : (0 : ℚ) ≤
        (((tool_calls.filter (fun c => c.success)).length : ℚ)
          / (tool_calls.length : ℚ)) * 100 := by positivity
    have hq100 : (((tool_calls.filter (fun c => c.success)).length : ℚ)
        / (tool_calls.length : ℚ)) * 100 ≤ 100 := by
      have hd : (((tool_calls.filter (fun c => c.success)).length : ℚ)
          / (tool_calls.length : ℚ)) ≤ 1 := by
        rw [div_le_one (by exact_mod_cast hT)]
        exact_mod_cast hST
      linarith
    rw [hstats]
    refine ⟨(Nat.add_sub_cancel' hST).symm, roundTo2_nonneg hq0,
      roundTo2_le_100 hq100, ?_, ?_, ?_⟩
    · intro hcon
      exact absurd hcon hne
    · intro _
      exact congrArg roundTo2 (by ring)
    · intro hS0
      rw [hS0]
      simp [roundTo2]

/-- A failed tool call used by the claim C3 counterexample and
witness. -/
def failedCallC3 : Adapter.ToolCall :=
  { id := "t1", name := "create_page", server_label := "Notion", arguments := "",
    success := false, error := some "timeout", output := none }

/-- Claim C3 counterexample: a list with one failed tool call has
successRate 0 while total is 1, so successRate = 0 does not imply
total = 0 and the claimed equivalence fails. -/
theorem claim_C3_counterexample :
    (Adapter.get_tool_call_stats [failedCallC3]).success_rate = 0
    ∧ (Adapter.get_tool_call_stats [failedCallC3]).total = 1 := by
  constructor
  · show roundTo2 _ = 0
    rw [show (List.filter (fun c => c.success) [failedCallC3]).length = 0 from rfl]
    norm_num [roundTo2]
  · rfl

theorem claim_C3_witness :
    ([failedCallC3] ≠ ([] : List Adapter.ToolCall))
    ∧ (Adapter.get_tool_call_stats [failedCallC3]).success_rate
        = roundTo2 (100 * ((Adapter.get_tool_call_stats [failedCallC3]).successful : ℚ)
            / ((Adapter.get_tool_call_stats [failedCallC3]).total : ℚ)) :=
  ⟨by decide, (claim_C3_amended [failedCallC3]).2.2.2.2.1 (by decide)⟩

/-- Claim C6 (amended): provided every single response the provider
returns carries pairwise-distinct tool-call ids within itself, the
accumulated tool-call list of a chat run has pairwise-distinct ids: at
each accumulation point an incoming batch is filtered against the ids
accumulated so far.  Without that proviso the filter does not compare
the members of one batch with each other, so a single response
repeating an id introduces a duplicate. -/
theorem claim_C6_amended (env : Adapter.ChatEnv) (h : EnvOk env) :
    (idsOf ((Adapter.chat env).tool_calls.getD [])).Nodup := by
  unfold Adapter.chat
  cases hini : env.initial with
  | error e => simp [idsOf]
  | ok response =>
    dsimp only
    have h0 := h.1 response hini
    have hloop := chatLoop_nodup env h.2 50
      { all_tool_calls := [], approval_iterations := 0,
        total_approvals_processed := 0, current := response,
        last_extracted := { content := "", tool_calls := [], approval_requests := [] } }
      (by simp [idsOf]) h0
    simpa using dedupAppend_nodup hloop.1 hloop.2

/-- An output item carrying tool-call id a, used twice in the claim C6
counterexample response. -/
def dupCallItem : Adapter.OutputItem :=
  .mcp_call "a" "create_page" "Notion" "" none none

/-- Response whose output repeats the same tool-call id twice. -/
def respDup6 : Adapter.Response :=
  { id := some "resp0", output := [dupCallItem, dupCallItem] }

/-- Environment for the claim C6 counterexample. -/
def envDup6 : Adapter.ChatEnv :=
  { initial := .ok respDup6, continuation := fun _ => .error "unused" }

/-- Claim C6 counterexample: when one response carries two tool calls
with the same id, both survive accumulation, so the returned list holds
two tool calls sharing an id — the dedup filter only compares a batch
against previously accumulated calls. -/
theorem claim_C6_counterexample :
    idsOf ((Adapter.chat envDup6).tool_calls.getD []) = ["a", "a"]
    ∧ ¬ (idsOf ((Adapter.chat envDup6).tool_calls.getD [])).Nodup := by
  constructor
  · rfl
  · decide

/-- Response for the claim C6 witness: one tool call, no approvals. -/
def respW6 : Adapter.Response :=
  { id := some "resp0",
    output := [Adapter.OutputItem.mcp_call "a" "create_page" "Notion" "" none none] }

/-- Environment for the claim C6 witness. -/
def envW6 : Adapter.ChatEnv :=
  { initial := .ok respW6, continuation := fun _ => .error "no continuation" }

theorem claim_C6_witness :
    EnvOk envW6 ∧ (idsOf ((Adapter.chat envW6).tool_calls.getD [])).Nodup := by
  have h : EnvOk envW6 := by
    constructor
    · intro r hr
      injection hr with h2
      subst h2
      decide
    · intro k r hr
      simp [envW6] at hr
  exact ⟨h, claim_C6_amended envW6 h⟩
